import Mathlib

set_option maxRecDepth 4000
set_option maxHeartbeats 1000000

/-!
Verification development for the WAPT operator console
(src/src/python/wapt.py): a shallow embedding of its script-orchestration
and state-tracking layer, together with theorems about path-sandboxing,
AP session-record handling, logging and shutdown cleanup.

The embedding models the mutable state touched by the orchestration code
(the three temp files, the log directory, the BSSID environment variable)
as an explicit record `St`, the ambient filesystem / process oracles as a
record `Env`, and every observable action (process execution, log append,
screen print, file removal) as an `Effect`.  A computation returns a
`Res`: either a normal return or an uncaught exception, in both cases
carrying the state reached and the effects performed so far.
-/

namespace Wapt

/-- Fixed path of the AP session record file (AP_ACTIVE_FILE in the source). -/
def AP_ACTIVE_FILE : String := "/tmp/ap_active"

/-- Fixed path of the HTTP-server pid temp file. -/
def HTTP_PID_FILE : String := "/tmp/wapt_http_server.pid"

/-- Fixed path of the generated hostapd configuration temp file. -/
def HOSTAPD_CONF_FILE : String := "/tmp/hostapd.conf"

/-- Mutable state visible to the orchestration layer: the content of the AP
session record file (`none` = absent), presence of the two other temp files,
whether the log directory exists, and the BSSID environment variable. -/
structure St where
  apActive : Option String
  httpPid : Bool
  hostapdConf : Bool
  logDirExists : Bool
  envBssid : Option String
  deriving DecidableEq, Repr

/-- Outcome of running an external script: normal exit 0 with captured
stdout, non-zero exit with captured stderr (CalledProcessError), or an
unexpected spawn-time exception. -/
inductive ScriptOut where
  | success (stdout : String)
  | failExit (stderr : String)
  | spawnExn
  deriving DecidableEq, Repr

/-- Ambient environment: the bash base directory, the path canonicalizer
(`Path.resolve`, symlink and dot-dot aware, abstract here), the regular-file
test, fault oracles for `os.makedirs`, log writes and `os.remove`, the
behaviour of invoked external scripts (which may transform the tracked
state, e.g. the start script creates the AP record file), the current time
and the local-time formatter. -/
structure Env where
  basePath : List String
  resolve : List String → List String
  isFile : List String → Bool
  makedirsOk : Bool
  logWriteOk : Bool
  removeOk : String → Bool
  scriptRun : String → List String → St → St × ScriptOut
  now : Int
  fmtTime : Int → String

/-- Structured log messages: one constructor per distinct `log_event` call
site modelled here (the timestamp prefix added by `log_event` is elided). -/
inductive LogMsg where
  | stopAction
  | setCustomBssid (bssid : String)
  | launchedProfile (title : String) (args : List String)
  | errScriptNotFound (name : String)
  | errScriptFailed (name : String) (stderr : String)
  | errScriptUnexpected (name : String)
  | errReadApStatus
  | cleanupAction
  | removedTemp (path : String)
  | errRemoveTemp (path : String)
  | unexpectedError
  | sessionInterrupted
  deriving DecidableEq, Repr

/-- Observable actions performed by the orchestration layer. -/
inductive Effect where
  | exec (script : String) (args : List String)
  | logAppend (m : LogMsg)
  | print (s : String)
  | removeFile (path : String)
  | uiClear
  | waitInput
  deriving DecidableEq, Repr

/-- Whether an effect is a process execution. -/
def Effect.isExec : Effect → Bool
  | .exec _ _ => true
  | _ => false

/-- Whether an effect is a successful log append. -/
def Effect.isLogAppend : Effect → Bool
  | .logAppend _ => true
  | _ => false

/-- Whether an effect is an `os.remove` call. -/
def Effect.isRemoveFile : Effect → Bool
  | .removeFile _ => true
  | _ => false

/-- Result of a modelled computation: `ok` is a normal return, `exn` an
uncaught Python exception propagating to the caller.  Both carry the state
reached and the list of effects performed before returning or raising. -/
inductive Res where
  | ok (st : St) (fx : List Effect)
  | exn (st : St) (fx : List Effect)
  deriving DecidableEq, Repr

/-- State reached by a computation. -/
def Res.st : Res → St
  | .ok s _ => s
  | .exn s _ => s

/-- Effects performed by a computation. -/
def Res.fx : Res → List Effect
  | .ok _ f => f
  | .exn _ f => f

/-- Whether a computation returned normally. -/
def Res.isOk : Res → Bool
  | .ok _ _ => true
  | .exn _ _ => false

/-- Sequencing: run the continuation unless an exception is propagating;
effects accumulate in order. -/
def Res.seq : Res → (St → Res) → Res
  | .ok s f, k =>
    match k s with
    | .ok s2 f2 => .ok s2 (f ++ f2)
    | .exn s2 f2 => .exn s2 (f ++ f2)
  | .exn s f, _ => .exn s f

/-- Effects of the body of `log_event`s try-block: on a successful append a
single log entry; on a write failure the error is printed to the screen
(two prints: the message and the exception) and swallowed. -/
def logFx (env : Env) (m : LogMsg) : List Effect :=
  if env.logWriteOk then [Effect.logAppend m]
  else [Effect.print ("[x] Failed to write to log file."), Effect.print ("(exception)")]

/-- Embedding of `log_event` (wapt.py lines 463-481).  The
`os.makedirs(log_dir)` call sits outside the try-block in the source, so a
failure to create an absent log directory propagates to the caller; only
the open/write is guarded by try/except. -/
def log_event (env : Env) (st : St) (m : LogMsg) : Res :=
  if st.logDirExists then Res.ok st (logFx env m)
  else if env.makedirsOk then Res.ok { st with logDirExists := true } (logFx env m)
  else Res.exn st []

/-- Python whitespace test used by `str.strip()`. -/
def pyIsSpace (c : Char) : Bool :=
  c == ' ' || c == Char.ofNat 9 || c == Char.ofNat 10 || c == Char.ofNat 13 ||
    c == Char.ofNat 12 || c == Char.ofNat 11

/-- Python `str.strip()`: drop leading and trailing whitespace. -/
def pyStrip (s : String) : String :=
  String.mk (((s.data.dropWhile pyIsSpace).reverse.dropWhile pyIsSpace).reverse)

/-- Split a character list on every occurrence of a separator, keeping
empty groups (the semantics of Python `str.split(sep)`). -/
def splitOnChar (sep : Char) : List Char → List (List Char)
  | [] => [[]]
  | c :: rest =>
      let r := splitOnChar sep rest
      if c = sep then [] :: r
      else
        match r with
        | [] => [[c]]
        | h :: t => (c :: h) :: t

/-- Python `str.split(sep)` for a one-character separator. -/
def pySplit (s : String) (sep : Char) : List String :=
  (splitOnChar sep s.data).map (fun cs => String.mk cs)

/-- Decimal digit value of a character, if any. -/
def digitVal (c : Char) : Option Nat :=
  if 48 ≤ c.toNat && c.toNat ≤ 57 then some (c.toNat - 48) else none

/-- Value of a non-empty all-digit character list. -/
def natDigits (cs : List Char) : Option Nat :=
  cs.foldl
    (fun acc c =>
      match acc, digitVal c with
      | some a, some d => some (a * 10 + d)
      | _, _ => none)
    (some 0)

/-- Digits-only parse rejecting the empty list. -/
def pyNat (cs : List Char) : Option Nat :=
  if cs.isEmpty then none else natDigits cs

/-- Python `int(...)` on a string, as used on the record timestamp field:
surrounding whitespace is stripped, an optional sign allowed (underscore
digit grouping is not modelled; no claim uses it). -/
def pyInt (s : String) : Option Int :=
  match (pyStrip s).data with
  | [] => none
  | c :: rest =>
      if c = '-' then (pyNat rest).map (fun n => -(n : Int))
      else if c = '+' then (pyNat rest).map (fun n => (n : Int))
      else (pyNat (c :: rest)).map (fun n => (n : Int))

/-- Candidate script path built by `run_bash_script`:
`base_path / f"{script_name}.sh"` before canonicalization (a logical name
may contain slashes, which pathlib treats as separators). -/
def scriptCandidate (env : Env) (name : String) : List String :=
  env.basePath ++ pySplit (name ++ ".sh") '/'

/-- `base in path.parents` for pathlib paths: the base is a proper ancestor
of the path (a strict component-wise prefix). -/
def strictlyInside (base p : List String) : Bool :=
  base.isPrefixOf p && base != p

/-- Embedding of `run_bash_script` (wapt.py lines 367-437).  The source
rejects with `not script_path.is_file() or base_path not in
script_path.parents`; this is written here as the equivalent positive
guard.  On rejection it prints a warning, logs the error and returns
before the pause, executing nothing.  On acceptance it runs the script;
a non-zero exit prints and logs the failure (stderr only shown when
captured), and a spawn-time exception is caught by the generic handler.
UI-only behaviour (screen clear, title header, pause prompt) is kept as
effects; the stdout print of the capture branch uses the script oracle. -/
def run_bash_script (env : Env) (st : St) (name : String) (args : List String)
    (pause capture clear : Bool) (title : Option String) : Res :=
  let fx0 := (if clear then [Effect.uiClear] else []) ++
    (match title with
     | some t => [Effect.print t]
     | none => [])
  let resolved := env.resolve (scriptCandidate env name)
  if env.isFile resolved && strictlyInside env.basePath resolved then
    Res.seq (Res.ok st (fx0 ++ [Effect.exec name args]))
      (fun s =>
        match env.scriptRun name args s with
        | (s2, ScriptOut.success out) =>
            Res.ok s2 ((if capture then [Effect.print (pyStrip out)] else []) ++
              (if pause then [Effect.waitInput] else []))
        | (s2, ScriptOut.failExit err) =>
            let errShown := if capture then err else ""
            Res.seq (Res.ok s2 ([Effect.print ("[x] Script failed: " ++ name ++ ".sh")] ++
                (if errShown != "" then [Effect.print (pyStrip errShown)] else [])))
              (fun s3 => Res.seq (log_event env s3 (LogMsg.errScriptFailed name errShown))
                (fun s4 => Res.ok s4 (if pause then [Effect.waitInput] else [])))
        | (s2, ScriptOut.spawnExn) =>
            Res.seq (Res.ok s2 [Effect.print ("[x] Unexpected error running script: " ++ name ++ ".sh")])
              (fun s3 => Res.seq (log_event env s3 (LogMsg.errScriptUnexpected name))
                (fun s4 => Res.ok s4 (if pause then [Effect.waitInput] else []))))
  else
    Res.seq (Res.ok st (fx0 ++ [Effect.print ("[x] Script not found or invalid path: " ++ name ++ ".sh")]))
      (fun s => log_event env s (LogMsg.errScriptNotFound name))

/-- Return value of `get_interface_details`: the not-found triple, the
script-error triple, an uncaught exception, or the parsed triple. -/
inductive IfaceResult where
  | notFound
  | scriptError
  | raised
  | parsed (iface state mode : String)
  deriving DecidableEq, Repr

/-- Field extraction of `get_interface_details`:
`lines[k].split(":")[1].strip().upper() if len(lines) > k else "?"`
(a line with no colon raises IndexError in the source; that corner is not
reached by any claim and is defaulted here). -/
def parseIfaceField (lines : List String) (k : Nat) : String :=
  if k < lines.length then pyStrip ((pySplit (lines.getD k "") (Char.ofNat 58)).getD 1 "") |>.toUpper
  else "?"

/-- Embedding of `get_interface_details` (wapt.py lines 253-277): resolves
`base/services/interface-ctl.sh`, applies the same sandbox-and-regular-file
guard, and returns the not-found triple without executing anything when the
guard fails.  Only CalledProcessError is caught around the run. -/
def get_interface_details (env : Env) (st : St) : Res × IfaceResult :=
  let resolved := env.resolve (env.basePath ++ ["services", "interface-ctl.sh"])
  if env.isFile resolved && strictlyInside env.basePath resolved then
    match env.scriptRun "services/interface-ctl" ["status"] st with
    | (s2, ScriptOut.success out) =>
        let lines := pySplit (pyStrip out) (Char.ofNat 10)
        (Res.ok s2 [Effect.exec "services/interface-ctl" ["status"]],
         IfaceResult.parsed (parseIfaceField lines 0) (parseIfaceField lines 1)
           (parseIfaceField lines 2))
    | (s2, ScriptOut.failExit _) =>
        (Res.ok s2 [Effect.exec "services/interface-ctl" ["status"]], IfaceResult.scriptError)
    | (s2, ScriptOut.spawnExn) =>
        (Res.exn s2 [Effect.exec "services/interface-ctl" ["status"]], IfaceResult.raised)
  else (Res.ok st [], IfaceResult.notFound)

/-- `parts[k] or "N/A"`: Python string truthiness defaults an empty field. -/
def orNA (s : String) : String := if s = "" then "N/A" else s

/-- The detail text inside the Running display, matching the f-strings of
`print_service_status`: `{start_time}, {ssid}, CH {channel}[, {nat}], BSSID
{bssid}`; the NAT segment appears only for a truthy (present and non-empty)
fifth field. -/
def runningDetails (env : Env) (ts : Int) (parts : List String) : String :=
  let ssid := orNA (parts.getD 1 "")
  let bssid := orNA (parts.getD 2 "")
  let channel := orNA (parts.getD 3 "")
  let natSeg :=
    if parts.length ≥ 5 then
      let n := parts.getD 4 ""
      if n = "" then "" else ", " ++ n
    else ""
  env.fmtTime ts ++ ", " ++ ssid ++ ", CH " ++ channel ++ natSeg ++ ", BSSID " ++ bssid

/-- The full Running display string. -/
def runningDisplay (env : Env) (ts : Int) (parts : List String) : String :=
  "Running (" ++ (runningDetails env ts parts ++ ")")

/-- Embedding of `print_service_status` (wapt.py lines 211-249): if the
record file exists its stripped content is split on pipes; with at least 4
fields and an integer first field the age `now - timestamp` is compared to
the 900s expiry; a fresh record renders Running with its details, anything
else leaves the display at Stopped.  An int() parse failure is caught and
logged; the record file is never written or removed here. -/
def print_service_status (env : Env) (st : St) : Res :=
  match st.apActive with
  | none => Res.ok st [Effect.print ("[ Access Point ] " ++ "Stopped")]
  | some content =>
      let parts := pySplit (pyStrip content) '|'
      if parts.length ≥ 4 then
        match pyInt (parts.getD 0 "") with
        | none =>
            Res.seq (log_event env st LogMsg.errReadApStatus)
              (fun s => Res.ok s [Effect.print ("[ Access Point ] " ++ "Stopped")])
        | some ts =>
            if env.now - ts ≤ 900 then
              Res.ok st [Effect.print ("[ Access Point ] " ++ runningDisplay env ts parts)]
            else
              Res.ok st [Effect.print ("[ Access Point ] " ++ "Stopped")]
      else Res.ok st [Effect.print ("[ Access Point ] " ++ "Stopped")]

/-- Uppercase hexadecimal digit (0-15). -/
def hexUpperChar (n : Nat) : Char :=
  if n < 10 then Char.ofNat (48 + n) else Char.ofNat (55 + n)

/-- Hex digits of `n`, most significant first, via an explicit fuel bound
(structural recursion, so that the kernel can evaluate it). -/
def hexRepAux : Nat → Nat → List Char
  | 0, _ => []
  | fuel + 1, n => if n = 0 then [] else hexRepAux fuel (n / 16) ++ [hexUpperChar (n % 16)]

/-- Uppercase hexadecimal representation, most significant digit first. -/
def hexRep (n : Nat) : List Char :=
  if n = 0 then [hexUpperChar 0] else hexRepAux n n

/-- Python `f"{octet:02X}"`: uppercase hex, zero-padded to at least two
digits. -/
def pyFormat02X (n : Nat) : String :=
  let ds := hexRep n
  String.mk (List.replicate (2 - ds.length) (Char.ofNat 48) ++ ds)

/-- Embedding of `generate_bssid` (wapt.py lines 449-461): a locally
administered MAC `[0x02, 0, 0, 0, 0, profile_number]` rendered as
colon-separated `02X` octets. -/
def generate_bssid (profile_number : Nat) : String :=
  String.intercalate ":" (([2, 0, 0, 0, 0, profile_number] : List Nat).map pyFormat02X)

/-- One AP profile entry (`tid` is the `id` field of the source dicts). -/
structure Profile where
  tid : String
  desc : String
  config : String
  pause : Bool
  deriving DecidableEq, Repr

/-- The AP_PROFILES table (wapt.py lines 483-497). -/
def AP_PROFILES : List Profile := [
  ⟨"T001", "Open", "ap_t001", true⟩,
  ⟨"T003", "Open", "ap_t003_1", true⟩,
  ⟨"T003", "WPA2", "ap_t003_2", true⟩,
  ⟨"T003", "WPA2 Hidden SSID", "ap_t003_3", true⟩,
  ⟨"T003", "Misconfigured", "ap_t003_4", true⟩,
  ⟨"T004", "WPA2", "ap_t004", true⟩,
  ⟨"T005", "WPA2", "ap_t005", true⟩,
  ⟨"T006", "Misconfigured", "ap_t006", true⟩,
  ⟨"T007", "WPA2", "ap_t007", true⟩,
  ⟨"T009", "WPA2", "ap_t009", true⟩,
  ⟨"T014", "Open", "ap_t014", true⟩,
  ⟨"T015", "Open", "ap_t015", true⟩,
  ⟨"T016", "Open", "ap_t016", true⟩]

/-- Embedding of the `stop_ap` closure inside `ap_profiles` (wapt.py lines
504-506): log the action, then run the stop script (pause, not captured,
screen cleared, titled).  No state-store clear happens here. -/
def stop_ap (env : Env) (st : St) : Res :=
  Res.seq (log_event env st LogMsg.stopAction)
    (fun s => run_bash_script env s "utilities/stop-ap" [] true false true
      (some "Stop Access Point"))

/-- Embedding of one launch attempt of the `ap_profiles` loop for an
already-validated numeric choice (wapt.py lines 537-569): if the record
file exists the attempt is rejected with a screen warning and a pause,
touching nothing else.  Otherwise the BSSID environment variable is
popped, optionally regenerated and logged, the launch is logged and the
start script run with the profile config (and `nat` when accepted at the
prompt).  `useNat`/`useBssid` stand for the two interactive answers. -/
def ap_profiles_launch (env : Env) (st : St) (profile_index : Nat)
    (useNat useBssid : Bool) : Res :=
  if st.apActive.isSome then
    Res.ok st [Effect.print ("[!] An access point is already running."), Effect.waitInput]
  else
    let profile := AP_PROFILES.getD profile_index ⟨"", "", "", true⟩
    let title := profile.tid ++ ": " ++ profile.desc
    let args := [profile.config] ++ (if useNat then ["nat"] else [])
    let st1 : St := { st with envBssid := none }
    Res.seq
      (if useBssid then
        let b := generate_bssid (profile_index + 1)
        Res.seq (Res.ok { st1 with envBssid := some b } [])
          (fun s => log_event env s (LogMsg.setCustomBssid b))
      else Res.ok st1 [])
      (fun s =>
        Res.seq (log_event env s (LogMsg.launchedProfile title args))
          (fun s2 => run_bash_script env s2 "utilities/start-ap" args profile.pause false true
            (some title)))

/-- Presence test for the three temp files against the tracked state. -/
def fileExistsSt (st : St) (p : String) : Bool :=
  if p = AP_ACTIVE_FILE then st.apActive.isSome
  else if p = HTTP_PID_FILE then st.httpPid
  else if p = HOSTAPD_CONF_FILE then st.hostapdConf
  else false

/-- Effect of a successful `os.remove` of a temp file on the state. -/
def removeFileSt (st : St) (p : String) : St :=
  if p = AP_ACTIVE_FILE then { st with apActive := none }
  else if p = HTTP_PID_FILE then { st with httpPid := false }
  else if p = HOSTAPD_CONF_FILE then { st with hostapdConf := false }
  else st

/-- One iteration of the `cleanup_temp_files` loop (wapt.py lines 899-905):
inside the try, an existing file is removed and the removal logged; an
OSError (from the remove, or from `log_event`s makedirs) is caught and
logged by the handler, whose own `log_event` failure propagates. -/
def cleanupOne (env : Env) (st : St) (p : String) : Res :=
  if fileExistsSt st p then
    if env.removeOk p then
      match log_event env (removeFileSt st p) (LogMsg.removedTemp p) with
      | Res.ok s f => Res.ok s (Effect.removeFile p :: f)
      | Res.exn s f =>
          match log_event env s (LogMsg.errRemoveTemp p) with
          | Res.ok s2 f2 => Res.ok s2 (Effect.removeFile p :: (f ++ f2))
          | Res.exn s2 f2 => Res.exn s2 (Effect.removeFile p :: (f ++ f2))
    else
      match log_event env st (LogMsg.errRemoveTemp p) with
      | Res.ok s f => Res.ok s (Effect.removeFile p :: f)
      | Res.exn s f => Res.exn s (Effect.removeFile p :: f)
  else Res.ok st []

/-- The fixed temp-file list of `cleanup_temp_files`. -/
def tempFiles : List String := [AP_ACTIVE_FILE, HTTP_PID_FILE, HOSTAPD_CONF_FILE]

/-- Embedding of `cleanup_temp_files` (wapt.py lines 886-905): announce,
log the action (this `log_event` is outside any try, so its makedirs
failure propagates), then attempt each temp file in turn. -/
def cleanup_temp_files (env : Env) (st : St) : Res :=
  Res.seq (Res.ok st [Effect.print ("[~] Cleaning up temporary files...")])
    (fun s0 =>
      Res.seq (log_event env s0 LogMsg.cleanupAction)
        (fun s1 =>
          tempFiles.foldl (fun r p => Res.seq r (fun s => cleanupOne env s p))
            (Res.ok s1 [])))

/-- Embedding of the `except Exception` handler of `main` (wapt.py lines
947-950): temp cleanup, a screen message, a log entry — the stop script is
not invoked on this path. -/
def mainOnException (env : Env) (st : St) : Res :=
  Res.seq (cleanup_temp_files env st)
    (fun s => Res.seq (Res.ok s [Effect.print ("[x] An unexpected error occurred. See log for details.")])
      (fun s2 => log_event env s2 LogMsg.unexpectedError))

/-- Embedding of the `except KeyboardInterrupt` handler of `main` (wapt.py
lines 940-946): when the record file exists the stop script runs first,
then temp cleanup, a screen message and a log entry. -/
def mainOnInterrupt (env : Env) (st : St) : Res :=
  Res.seq
    (if st.apActive.isSome then
      Res.seq (Res.ok st [Effect.print ("[!] Stopping running access point due to user interrupt...")])
        (fun s => run_bash_script env s "utilities/stop-ap" [] false false false none)
    else Res.ok st [])
    (fun s =>
      Res.seq (cleanup_temp_files env s)
        (fun s2 => Res.seq (Res.ok s2 [Effect.print ("[!] Session interrupted by user.")])
          (fun s3 => log_event env s3 LogMsg.sessionInterrupted)))

/-- Whether any process execution occurs in an effect trace. -/
def hasExec (fx : List Effect) : Bool := fx.any Effect.isExec

/-- Number of log entries appended in an effect trace. -/
def countLogs (fx : List Effect) : Nat := fx.countP (fun e => Effect.isLogAppend e)

/-- Benign concrete environment: identity canonicalizer, every candidate a
regular file, all fault oracles succeeding, scripts exiting 0 without
touching the tracked state. -/
def envT : Env := {
  basePath := ["opt", "wapt", "src", "bash"]
  resolve := fun p => p
  isFile := fun _ => true
  makedirsOk := true
  logWriteOk := true
  removeOk := fun _ => true
  scriptRun := fun _ _ s => (s, ScriptOut.success "")
  now := 1715900010
  fmtTime := fun _ => "12:00:00" }

/-- Environment whose scripts all exit non-zero without touching the
tracked state. -/
def envStopFail : Env := { envT with
  scriptRun := fun _ _ s => (s, ScriptOut.failExit "hostapd teardown failed") }

/-- Environment whose canonicalizer sends every candidate outside the base
directory (an escaping logical name). -/
def envEsc : Env := { envT with resolve := fun _ => ["etc", "evil.sh"] }

/-- Environment in which `os.makedirs` fails. -/
def envNoMk : Env := { envT with makedirsOk := false }

/-- Environment in which log-file writes fail. -/
def envWriteFail : Env := { envT with logWriteOk := false }

/-- Idle concrete state: no record file, no temp files, log directory
present. -/
def st0 : St := {
  apActive := none
  httpPid := false
  hostapdConf := false
  logDirExists := true
  envBssid := none }

/-- State with a fresh canonical AP session record present. -/
def stActive : St := { st0 with apActive := some "1715900000|TestNet|02:00:00:00:00:01|6" }

/-- State with a legacy-schema AP session record present. -/
def stLegacy : St := { st0 with apActive := some "TestNet|1715900000|nat" }

/-- State with a four-field legacy-schema record (non-numeric first
field) present. -/
def stLegacy4 : St := { st0 with apActive := some "TestNet|1715900000|nat|02:00:00:00:00:01" }

/-- State with all three temp files present but the log directory absent. -/
def stAllTemps : St := {
  apActive := some "x"
  httpPid := true
  hostapdConf := true
  logDirExists := false
  envBssid := none }

/-- State with the log directory absent and nothing else present. -/
def stNoDir : St := { st0 with logDirExists := false }

/-- State with all three temp files present and the log directory too. -/
def stAll3 : St := { st0 with apActive := some "x", httpPid := true, hostapdConf := true }

/-- Environment in which only the pid-file removal fails. -/
def envPidFail : Env := { envT with removeOk := fun q => q != HTTP_PID_FILE }

/-! Helper lemmas shared by the claim theorems. -/

/-- Replacing an already-true `logDirExists` field is the identity. -/
theorem st_set_logDir (st : St) (h : st.logDirExists = true) :
    { st with logDirExists := true } = st := by
  cases st
  simp_all

/-- Normal form of `log_event` when the directory step cannot fault. -/
theorem log_event_norm (env : Env) (st : St) (m : LogMsg)
    (h : st.logDirExists = true ∨ env.makedirsOk = true) :
    log_event env st m = Res.ok { st with logDirExists := true } (logFx env m) := by
  unfold log_event
  rcases hd : st.logDirExists with _ | _
  · rcases h with h | h
    · rw [hd] at h
      exact absurd h (by simp)
    · simp [h]
  · rw [st_set_logDir st hd]
    simp

/-- `log_event` with the directory present returns normally in place. -/
theorem log_event_of_dir (env : Env) (st : St) (m : LogMsg)
    (h : st.logDirExists = true) : log_event env st m = Res.ok st (logFx env m) := by
  unfold log_event
  simp [h]

/-- The try-block effects of a log write contain no process execution. -/
theorem hasExec_logFx (env : Env) (m : LogMsg) : hasExec (logFx env m) = false := by
  unfold logFx
  split <;> rfl

/-- `log_event` performs no process execution on any path. -/
theorem hasExec_log_event (env : Env) (st : St) (m : LogMsg) :
    hasExec (log_event env st m).fx = false := by
  unfold log_event
  split
  · exact hasExec_logFx env m
  · split
    · exact hasExec_logFx env m
    · rfl

/-- The try-block effects of a log write contain no file removal. -/
theorem noRemove_logFx (env : Env) (m : LogMsg) :
    (logFx env m).any Effect.isRemoveFile = false := by
  unfold logFx
  split <;> rfl

/-- `log_event` removes no file on any path. -/
theorem noRemove_log_event (env : Env) (st : St) (m : LogMsg) :
    ((log_event env st m).fx).any Effect.isRemoveFile = false := by
  unfold log_event
  split
  · exact noRemove_logFx env m
  · split
    · exact noRemove_logFx env m
    · rfl

/-- `log_event` never touches the AP record state. -/
theorem apActive_log_event (env : Env) (st : St) (m : LogMsg) :
    (log_event env st m).st.apActive = st.apActive := by
  unfold log_event
  split
  · rfl
  · split <;> rfl

/-- A successful log write appends exactly one entry; a failed one none. -/
theorem countLogs_logFx (env : Env) (m : LogMsg) :
    countLogs (logFx env m) = (if env.logWriteOk then 1 else 0) := by
  unfold logFx
  split <;> rfl

/-- Effects of sequencing after a normal return. -/
theorem Res.fx_seq_ok (s : St) (f : List Effect) (k : St → Res) :
    (Res.seq (Res.ok s f) k).fx = f ++ (k s).fx := by
  unfold Res.seq
  rcases h : k s with s2 | s2 <;> simp [h, Res.fx]

/-- State of sequencing after a normal return. -/
theorem Res.st_seq_ok (s : St) (f : List Effect) (k : St → Res) :
    (Res.seq (Res.ok s f) k).st = (k s).st := by
  unfold Res.seq
  rcases h : k s with s2 | s2 <;> simp [h, Res.st]

/-- Outcome flag of sequencing after a normal return. -/
theorem Res.isOk_seq_ok (s : St) (f : List Effect) (k : St → Res) :
    (Res.seq (Res.ok s f) k).isOk = (k s).isOk := by
  unfold Res.seq
  rcases h : k s with s2 | s2 <;> simp [h, Res.isOk]

/-- Sequencing after a propagating exception is the exception itself. -/
theorem Res.seq_exn (s : St) (f : List Effect) (k : St → Res) :
    Res.seq (Res.exn s f) k = Res.exn s f := rfl

/-- The effects already performed stay a prefix across sequencing. -/
theorem Res.fx_seq_prefix_self (r : Res) (k : St → Res) : r.fx <+: (Res.seq r k).fx := by
  rcases r with ⟨s, f⟩ | ⟨s, f⟩
  · rw [Res.fx_seq_ok]
    exact List.prefix_append f (k s).fx
  · rw [Res.seq_exn]

/-- any-distribution of `hasExec` over appends. -/
theorem hasExec_append (a b : List Effect) :
    hasExec (a ++ b) = (hasExec a || hasExec b) := List.any_append

/-- countP-distribution of `countLogs` over appends. -/
theorem countLogs_append (a b : List Effect) :
    countLogs (a ++ b) = countLogs a + countLogs b := List.countP_append _ a b

/-- Sequencing after a log write preserves the AP record state whenever the
continuation does. -/
theorem apActive_seq_log_event (env : Env) (st : St) (m : LogMsg) (k : St → Res)
    (hk : ∀ s, (k s).st.apActive = s.apActive) :
    (Res.seq (log_event env st m) k).st.apActive = st.apActive := by
  unfold log_event
  split
  · rw [Res.st_seq_ok]
    exact hk st
  · split
    · rw [Res.st_seq_ok, hk]
    · rfl

/-- Sequencing after a log write removes no file whenever the continuation
removes none. -/
theorem noRemove_seq_log_event (env : Env) (st : St) (m : LogMsg) (k : St → Res)
    (hk : ∀ s, ((k s).fx).any Effect.isRemoveFile = false) :
    ((Res.seq (log_event env st m) k).fx).any Effect.isRemoveFile = false := by
  unfold log_event
  split
  · rw [Res.fx_seq_ok, List.any_append, noRemove_logFx, hk]
    rfl
  · split
    · rw [Res.fx_seq_ok, List.any_append, noRemove_logFx, hk]
      rfl
    · rfl

/-- Normal form of the status display for a record whose content is
well-formed: at least four fields and an integer timestamp. -/
theorem print_service_status_wf (env : Env) (st : St) (content : String) (ts : Int)
    (hc : st.apActive = some content)
    (hlen : (pySplit (pyStrip content) '|').length ≥ 4)
    (hts : pyInt ((pySplit (pyStrip content) '|').getD 0 "") = some ts) :
    print_service_status env st =
      if env.now - ts ≤ 900 then
        Res.ok st [Effect.print ("[ Access Point ] " ++
          runningDisplay env ts (pySplit (pyStrip content) '|'))]
      else Res.ok st [Effect.print ("[ Access Point ] " ++ "Stopped")] := by
  simp only [print_service_status, hc]
  rw [if_pos hlen, hts]

/-- Push an `any` test through a conditional list. -/
theorem any_ite (c : Prop) [Decidable c] (a b : List Effect) (p : Effect → Bool) :
    ((if c then a else b).any p) = if c then a.any p else b.any p := by
  split <;> rfl

/-- If neither part of a sequence contains an effect satisfying `p`,
neither does the sequence. -/
theorem seq_any_false (p : Effect → Bool) (r : Res) (k : St → Res)
    (h1 : (r.fx).any p = false) (h2 : ∀ s, ((k s).fx).any p = false) :
    ((Res.seq r k).fx).any p = false := by
  rcases r with ⟨s, f⟩ | ⟨s, f⟩
  · rw [Res.fx_seq_ok, List.any_append]
    have hf : f.any p = false := h1
    rw [hf, h2 s]
    rfl
  · exact h1

/-- A log write only appends a log entry or prints to the screen. -/
theorem log_event_any_false (p : Effect → Bool) (env : Env) (st : St) (m : LogMsg)
    (hlog : ∀ m2, p (Effect.logAppend m2) = false)
    (hpr : ∀ s2, p (Effect.print s2) = false) :
    ((log_event env st m).fx).any p = false := by
  unfold log_event
  split
  · show (logFx env m).any p = false
    unfold logFx
    split <;> simp [hlog, hpr]
  · split
    · show (logFx env m).any p = false
      unfold logFx
      split <;> simp [hlog, hpr]
    · rfl

/-- The runner executes a process exactly when the sandbox guard passes. -/
theorem hasExec_run_bash_script (env : Env) (st : St) (name : String) (args : List String)
    (pause capture clear : Bool) (title : Option String) :
    hasExec (run_bash_script env st name args pause capture clear title).fx =
      (env.isFile (env.resolve (scriptCandidate env name)) &&
       strictlyInside env.basePath (env.resolve (scriptCandidate env name))) := by
  rcases hg : (env.isFile (env.resolve (scriptCandidate env name)) &&
      strictlyInside env.basePath (env.resolve (scriptCandidate env name))) with _ | _
  · simp only [run_bash_script, hg, Bool.false_eq_true, if_false, Res.fx_seq_ok,
      hasExec_append, hasExec_log_event]
    cases clear <;> cases title <;>
      simp [hasExec, Effect.isExec]
  · simp only [run_bash_script, hg, if_true, Res.fx_seq_ok, hasExec_append]
    have hx : hasExec [Effect.exec name args] = true := rfl
    simp [hx]

/-- The runner never performs an effect class outside execution, logging,
printing and UI waits. -/
theorem run_bash_script_any_false (p : Effect → Bool) (env : Env) (st : St) (name : String)
    (args : List String) (pause capture clear : Bool) (title : Option String)
    (hexe : ∀ n a, p (Effect.exec n a) = false)
    (hlog : ∀ m, p (Effect.logAppend m) = false)
    (hpr : ∀ s2, p (Effect.print s2) = false)
    (hui : p Effect.uiClear = false)
    (hwa : p Effect.waitInput = false) :
    ((run_bash_script env st name args pause capture clear title).fx).any p = false := by
  rcases hg : (env.isFile (env.resolve (scriptCandidate env name)) &&
      strictlyInside env.basePath (env.resolve (scriptCandidate env name))) with _ | _
  · simp only [run_bash_script, hg, Bool.false_eq_true, if_false]
    apply seq_any_false
    · cases clear <;> cases title <;>
        simp [Res.fx, List.any_append, hpr, hui]
    · intro s
      exact log_event_any_false p env s _ hlog hpr
  · simp only [run_bash_script, hg, if_true]
    apply seq_any_false
    · cases clear <;> cases title <;>
        simp [Res.fx, List.any_append, hexe, hpr, hui]
    · intro s
      rcases hr : env.scriptRun name args s with ⟨s2, o⟩
      rcases o with out | err | _
      · simp only [hr]
        simp [Res.fx, List.any_append, any_ite, hpr, hwa]
      · simp only [hr]
        apply seq_any_false
        · simp [Res.fx, List.any_append, any_ite, hpr]
        · intro s3
          apply seq_any_false
          · exact log_event_any_false p env s3 _ hlog hpr
          · intro s4
            simp [Res.fx, any_ite, hwa]
      · simp only [hr]
        apply seq_any_false
        · simp [Res.fx, hpr]
        · intro s3
          apply seq_any_false
          · exact log_event_any_false p env s3 _ hlog hpr
          · intro s4
            simp [Res.fx, any_ite, hwa]

/-- One cleanup iteration only removes, logs or prints. -/
theorem cleanupOne_any_false (p : Effect → Bool) (env : Env) (st : St) (q : String)
    (hlog : ∀ m, p (Effect.logAppend m) = false)
    (hpr : ∀ s2, p (Effect.print s2) = false)
    (hrm : ∀ s2, p (Effect.removeFile s2) = false) :
    ((cleanupOne env st q).fx).any p = false := by
  unfold cleanupOne
  split
  · split
    · rcases hle : log_event env (removeFileSt st q) (LogMsg.removedTemp q) with ⟨s, f⟩ | ⟨s, f⟩
      · have hf := log_event_any_false p env (removeFileSt st q) (LogMsg.removedTemp q) hlog hpr
        rw [hle] at hf
        simp only [Res.fx] at hf
        simp [hle, Res.fx, List.any_cons, hrm, hf]
      · have hf := log_event_any_false p env (removeFileSt st q) (LogMsg.removedTemp q) hlog hpr
        rw [hle] at hf
        simp only [Res.fx] at hf
        rcases hle2 : log_event env s (LogMsg.errRemoveTemp q) with ⟨s2, f2⟩ | ⟨s2, f2⟩ <;>
        · have hf2 := log_event_any_false p env s (LogMsg.errRemoveTemp q) hlog hpr
          rw [hle2] at hf2
          simp only [Res.fx] at hf2
          simp [hle, hle2, Res.fx, List.any_cons, List.any_append, hrm, hf, hf2]
    · rcases hle : log_event env st (LogMsg.errRemoveTemp q) with ⟨s, f⟩ | ⟨s, f⟩ <;>
      · have hf := log_event_any_false p env st (LogMsg.errRemoveTemp q) hlog hpr
        rw [hle] at hf
        simp only [Res.fx] at hf
        simp [hle, Res.fx, List.any_cons, hrm, hf]
  · rfl

/-- The temp-file cleanup only removes, logs or prints. -/
theorem cleanup_any_false (p : Effect → Bool) (env : Env) (st : St)
    (hlog : ∀ m, p (Effect.logAppend m) = false)
    (hpr : ∀ s2, p (Effect.print s2) = false)
    (hrm : ∀ s2, p (Effect.removeFile s2) = false) :
    ((cleanup_temp_files env st).fx).any p = false := by
  unfold cleanup_temp_files tempFiles
  simp only [List.foldl]
  apply seq_any_false
  · simp [Res.fx, hpr]
  · intro s0
    apply seq_any_false
    · exact log_event_any_false p env s0 _ hlog hpr
    · intro s1
      apply seq_any_false
      · apply seq_any_false
        · apply seq_any_false
          · rfl
          · intro s
            exact cleanupOne_any_false p env s _ hlog hpr hrm
        · intro s
          exact cleanupOne_any_false p env s _ hlog hpr hrm
      · intro s
        exact cleanupOne_any_false p env s _ hlog hpr hrm

/-- A sequence whose continuation executes nothing executes what its first
part executes. -/
theorem hasExec_seq (r : Res) (k : St → Res) (hk : ∀ s, hasExec (k s).fx = false) :
    hasExec (Res.seq r k).fx = hasExec r.fx := by
  rcases r with ⟨s, f⟩ | ⟨s, f⟩
  · rw [Res.fx_seq_ok]
    unfold hasExec at hk ⊢
    rw [List.any_append, hk s]
    simp [Res.fx]
  · rfl

/-- A sequence whose continuation preserves the AP record state preserves
it as a whole. -/
theorem seq_st_apActive (r : Res) (k : St → Res)
    (hk : ∀ s, (k s).st.apActive = s.apActive) :
    (Res.seq r k).st.apActive = r.st.apActive := by
  rcases r with ⟨s, f⟩ | ⟨s, f⟩
  · rw [Res.st_seq_ok]
    exact hk s
  · rfl

/-- The runner leaves the AP record state to the invoked script: if the
script preserves it, so does the whole call. -/
theorem run_bash_script_apActive (env : Env) (st : St) (name : String) (args : List String)
    (pause capture clear : Bool) (title : Option String)
    (hs : ∀ a s, ((env.scriptRun name a s).1).apActive = s.apActive) :
    (run_bash_script env st name args pause capture clear title).st.apActive = st.apActive := by
  rcases hg : (env.isFile (env.resolve (scriptCandidate env name)) &&
      strictlyInside env.basePath (env.resolve (scriptCandidate env name))) with _ | _
  · simp only [run_bash_script, hg, Bool.false_eq_true, if_false]
    rw [Res.st_seq_ok]
    exact apActive_log_event env st _
  · simp only [run_bash_script, hg, if_true]
    rw [Res.st_seq_ok]
    rcases hr : env.scriptRun name args st with ⟨s2, o⟩
    have hs2 : s2.apActive = st.apActive := by
      have h := hs args st
      rw [hr] at h
      exact h
    rcases o with out | err | _
    · simp only [hr]
      exact hs2
    · simp only [hr]
      rw [Res.st_seq_ok]
      have ha := apActive_seq_log_event env s2
        (LogMsg.errScriptFailed name (if capture then err else ""))
        (fun s4 => Res.ok s4 (if pause then [Effect.waitInput] else [])) (fun s4 => rfl)
      exact ha.trans hs2
    · simp only [hr]
      rw [Res.st_seq_ok]
      have ha := apActive_seq_log_event env s2 (LogMsg.errScriptUnexpected name)
        (fun s4 => Res.ok s4 (if pause then [Effect.waitInput] else [])) (fun s4 => rfl)
      exact ha.trans hs2

/-- C1: a script is executed by the runner exactly when the canonicalized
candidate path is a regular file lying strictly inside the bash base
directory; whenever either check fails, a not-found/invalid-path condition
is reported and no process is executed.  The same guard protects the
interface-status helper, which returns its not-found triple. -/
theorem run_bash_script_sandbox_guard (env : Env) (st : St) (name : String)
    (args : List String) (pause capture clear : Bool) (title : Option String) :
    (hasExec (run_bash_script env st name args pause capture clear title).fx
      = (env.isFile (env.resolve (scriptCandidate env name)) &&
         strictlyInside env.basePath (env.resolve (scriptCandidate env name))))
    ∧ ((env.isFile (env.resolve (scriptCandidate env name)) &&
        strictlyInside env.basePath (env.resolve (scriptCandidate env name))) = false →
       Effect.print ("[x] Script not found or invalid path: " ++ name ++ ".sh")
         ∈ (run_bash_script env st name args pause capture clear title).fx)
    ∧ (hasExec (get_interface_details env st).1.fx
      = (env.isFile (env.resolve (env.basePath ++ ["services", "interface-ctl.sh"])) &&
         strictlyInside env.basePath (env.resolve (env.basePath ++ ["services", "interface-ctl.sh"]))))
    ∧ ((env.isFile (env.resolve (env.basePath ++ ["services", "interface-ctl.sh"])) &&
        strictlyInside env.basePath (env.resolve (env.basePath ++ ["services", "interface-ctl.sh"]))) = false →
       (get_interface_details env st).2 = IfaceResult.notFound) := by
  refine ⟨?_, ?_, ?_, ?_⟩
  · exact hasExec_run_bash_script env st name args pause capture clear title
  · intro hg
    simp only [run_bash_script, hg, Bool.false_eq_true, if_false, Res.fx_seq_ok]
    simp
  · rcases hg : (env.isFile (env.resolve (env.basePath ++ ["services", "interface-ctl.sh"])) &&
        strictlyInside env.basePath (env.resolve (env.basePath ++ ["services", "interface-ctl.sh"]))) with _ | _
    · simp [get_interface_details, hg, Res.fx, hasExec]
    · simp only [get_interface_details, hg, if_true]
      rcases hrun : env.scriptRun "services/interface-ctl" ["status"] st with ⟨s2, o⟩
      rcases o with out | err | _ <;> simp [hrun, Res.fx, hasExec, Effect.isExec]
  · intro hg
    simp [get_interface_details, hg]

/-- Witness for C1 at a concrete escaping environment: the canonicalizer
maps the candidate outside the base directory, the runner executes
nothing, reports the invalid path, and the interface helper returns its
not-found triple. -/
theorem run_bash_script_sandbox_guard_witness :
    hasExec (run_bash_script envEsc st0 "../../etc/evil" [] true true false none).fx = false
    ∧ Effect.print ("[x] Script not found or invalid path: " ++ "../../etc/evil" ++ ".sh")
        ∈ (run_bash_script envEsc st0 "../../etc/evil" [] true true false none).fx
    ∧ (get_interface_details envEsc st0).2 = IfaceResult.notFound := by
  have h := run_bash_script_sandbox_guard envEsc st0 "../../etc/evil" [] true true false none
  refine ⟨?_, ?_, ?_⟩
  · rw [h.1]
    decide
  · exact h.2.1 (by decide)
  · exact h.2.2.2 (by decide)

/-- C3: a launch attempt made while the AP record file exists is rejected
with the already-running warning: the call returns the unchanged state with
only the warning and pause effects — no process execution, no log append,
no state write of any kind. -/
theorem ap_profiles_launch_rejected (env : Env) (st : St) (i : Nat)
    (useNat useBssid : Bool) (c : String) (h : st.apActive = some c) :
    ap_profiles_launch env st i useNat useBssid =
      Res.ok st [Effect.print ("[!] An access point is already running."), Effect.waitInput]
    ∧ hasExec (ap_profiles_launch env st i useNat useBssid).fx = false
    ∧ countLogs (ap_profiles_launch env st i useNat useBssid).fx = 0
    ∧ (ap_profiles_launch env st i useNat useBssid).st = st := by
  have he : st.apActive.isSome = true := by rw [h]; rfl
  refine ⟨?_, ?_, ?_, ?_⟩ <;>
    simp [ap_profiles_launch, he, Res.fx, Res.st, hasExec, countLogs,
      Effect.isExec, Effect.isLogAppend]

/-- Witness for C3 at a concrete active record. -/
theorem ap_profiles_launch_rejected_witness :
    ap_profiles_launch envT stActive 0 false false =
      Res.ok stActive [Effect.print ("[!] An access point is already running."), Effect.waitInput]
    ∧ hasExec (ap_profiles_launch envT stActive 0 false false).fx = false
    ∧ countLogs (ap_profiles_launch envT stActive 0 false false).fx = 0 := by
  have h := ap_profiles_launch_rejected envT stActive 0 false false
    "1715900000|TestNet|02:00:00:00:00:01|6" (by rfl)
  exact ⟨h.1, h.2.1, h.2.2.1⟩

/-- Normal form of the status display when the record file is absent. -/
theorem print_service_status_none (env : Env) (st : St) (h : st.apActive = none) :
    print_service_status env st = Res.ok st [Effect.print ("[ Access Point ] " ++ "Stopped")] := by
  simp only [print_service_status, h]

/-- Normal form of the status display for a record with fewer than four
fields (e.g. the legacy 3-field schema): silently Stopped. -/
theorem print_service_status_short (env : Env) (st : St) (c : String)
    (h : st.apActive = some c) (h4 : ¬ (pySplit (pyStrip c) '|').length ≥ 4) :
    print_service_status env st = Res.ok st [Effect.print ("[ Access Point ] " ++ "Stopped")] := by
  simp only [print_service_status, h]
  rw [if_neg h4]

/-- Normal form of the status display for a record whose first field is not
an integer (e.g. the legacy 4-field schema): the int() failure is caught,
logged, and the display stays Stopped. -/
theorem print_service_status_badTs (env : Env) (st : St) (c : String)
    (h : st.apActive = some c) (h4 : (pySplit (pyStrip c) '|').length ≥ 4)
    (hp : pyInt ((pySplit (pyStrip c) '|').getD 0 "") = none) :
    print_service_status env st =
      Res.seq (log_event env st LogMsg.errReadApStatus)
        (fun s => Res.ok s [Effect.print ("[ Access Point ] " ++ "Stopped")]) := by
  simp only [print_service_status, h]
  rw [if_pos h4, hp]

/-- Removing the AP record file clears the AP state, whatever happens to
the follow-up log writes. -/
theorem cleanupOne_clears_ap (env : Env) (st : St)
    (hrm : env.removeOk AP_ACTIVE_FILE = true) :
    (cleanupOne env st AP_ACTIVE_FILE).st.apActive = none := by
  unfold cleanupOne
  by_cases hex : fileExistsSt st AP_ACTIVE_FILE = true
  · simp only [hex, if_true, hrm]
    have hrem : (removeFileSt st AP_ACTIVE_FILE).apActive = none := by
      simp [removeFileSt]
    rcases hle : log_event env (removeFileSt st AP_ACTIVE_FILE)
        (LogMsg.removedTemp AP_ACTIVE_FILE) with ⟨s, f⟩ | ⟨s, f⟩
    · have hs : s.apActive = none := by
        have h := apActive_log_event env (removeFileSt st AP_ACTIVE_FILE)
          (LogMsg.removedTemp AP_ACTIVE_FILE)
        rw [hle] at h
        rw [Res.st] at h
        rw [h, hrem]
      simp [hs, Res.st]
    · have hs : s.apActive = none := by
        have h := apActive_log_event env (removeFileSt st AP_ACTIVE_FILE)
          (LogMsg.removedTemp AP_ACTIVE_FILE)
        rw [hle] at h
        rw [Res.st] at h
        rw [h, hrem]
      rcases hle2 : log_event env s (LogMsg.errRemoveTemp AP_ACTIVE_FILE) with ⟨s2, f2⟩ | ⟨s2, f2⟩ <;>
        · have h2 := apActive_log_event env s (LogMsg.errRemoveTemp AP_ACTIVE_FILE)
          rw [hle2] at h2
          rw [Res.st] at h2
          rw [hs] at h2
          simp [hle2, h2, Res.st]
  · have hn : st.apActive = none := by
      unfold fileExistsSt at hex
      simp at hex
      exact Option.not_isSome_iff_eq_none.mp (by simp [hex])
    simp [hex, hn, Res.st]

/-- Removing a file other than the AP record leaves the AP state alone. -/
theorem removeFileSt_apActive (st : St) (q : String) (hq : ¬ q = AP_ACTIVE_FILE) :
    (removeFileSt st q).apActive = st.apActive := by
  unfold removeFileSt
  rw [if_neg hq]
  split_ifs <;> rfl

/-- A cleanup iteration on a file other than the AP record preserves the
AP state. -/
theorem cleanupOne_preserves_ap (env : Env) (st : St) (q : String)
    (hq : ¬ q = AP_ACTIVE_FILE) :
    (cleanupOne env st q).st.apActive = st.apActive := by
  unfold cleanupOne
  split
  · split
    · rcases hle : log_event env (removeFileSt st q) (LogMsg.removedTemp q) with ⟨s, f⟩ | ⟨s, f⟩
      · have h := apActive_log_event env (removeFileSt st q) (LogMsg.removedTemp q)
        rw [hle] at h
        rw [Res.st] at h
        simp [hle, Res.st, h, removeFileSt_apActive st q hq]
      · have h := apActive_log_event env (removeFileSt st q) (LogMsg.removedTemp q)
        rw [hle] at h
        rw [Res.st] at h
        rcases hle2 : log_event env s (LogMsg.errRemoveTemp q) with ⟨s2, f2⟩ | ⟨s2, f2⟩ <;>
          · have h2 := apActive_log_event env s (LogMsg.errRemoveTemp q)
            rw [hle2] at h2
            rw [Res.st] at h2
            simp [hle, hle2, Res.st, h2, h, removeFileSt_apActive st q hq]
    · rcases hle : log_event env st (LogMsg.errRemoveTemp q) with ⟨s, f⟩ | ⟨s, f⟩ <;>
      · have h := apActive_log_event env st (LogMsg.errRemoveTemp q)
        rw [hle] at h
        rw [Res.st] at h
        simp [hle, Res.st, h]
  · rfl

/-- C4: for a well-formed record (at least four pipe-delimited fields with
an integer first field) the status display is the Running rendering of the
record fields when the age `now - timestamp` is at most 900 seconds, and
Stopped when the age exceeds 900 seconds; reading the status never deletes
the record file (for any state the record is unchanged and no remove
occurs), while the cleanup/clear operation does delete it. -/
theorem print_service_status_expiry (env : Env) (st : St) (content : String) (ts : Int)
    (hc : st.apActive = some content)
    (hlen : (pySplit (pyStrip content) '|').length ≥ 4)
    (hts : pyInt ((pySplit (pyStrip content) '|').getD 0 "") = some ts) :
    (env.now - ts ≤ 900 →
      print_service_status env st =
        Res.ok st [Effect.print ("[ Access Point ] " ++
          runningDisplay env ts (pySplit (pyStrip content) '|'))]
      ∧ ∃ rest, runningDisplay env ts (pySplit (pyStrip content) '|') = "Running (" ++ rest)
    ∧ (env.now - ts > 900 →
      print_service_status env st = Res.ok st [Effect.print ("[ Access Point ] " ++ "Stopped")])
    ∧ (∀ st2 : St, (print_service_status env st2).st.apActive = st2.apActive
        ∧ ((print_service_status env st2).fx).any Effect.isRemoveFile = false)
    ∧ (∀ st3 : St, env.removeOk AP_ACTIVE_FILE = true →
        (cleanupOne env st3 AP_ACTIVE_FILE).st.apActive = none) := by
  refine ⟨?_, ?_, ?_, ?_⟩
  · intro hle
    constructor
    · rw [print_service_status_wf env st content ts hc hlen hts, if_pos hle]
    · exact ⟨runningDetails env ts (pySplit (pyStrip content) '|') ++ ")", rfl⟩
  · intro hgt
    rw [print_service_status_wf env st content ts hc hlen hts, if_neg (by omega)]
  · intro st2
    rcases h2 : st2.apActive with _ | c2
    · rw [print_service_status_none env st2 h2]
      exact ⟨h2, rfl⟩
    · by_cases h4 : (pySplit (pyStrip c2) '|').length ≥ 4
      · rcases hp : pyInt ((pySplit (pyStrip c2) '|').getD 0 "") with _ | ts2
        · rw [print_service_status_badTs env st2 c2 h2 h4 hp]
          constructor
          · have ha := apActive_seq_log_event env st2 LogMsg.errReadApStatus
              (fun s => Res.ok s [Effect.print ("[ Access Point ] " ++ "Stopped")])
              (fun s => rfl)
            exact ha.trans h2
          · exact noRemove_seq_log_event env st2 LogMsg.errReadApStatus
              (fun s => Res.ok s [Effect.print ("[ Access Point ] " ++ "Stopped")])
              (fun s => rfl)
        · rw [print_service_status_wf env st2 c2 ts2 h2 h4 hp]
          constructor
          · split <;> exact h2
          · split <;> rfl
      · rw [print_service_status_short env st2 c2 h2 h4]
        exact ⟨h2, rfl⟩
  · intro st3 hrm
    exact cleanupOne_clears_ap env st3 hrm

/-- Witness for C4 at the spec scenario record
`1715900000|TestNet|02:00:00:00:00:01|6`: fresh at now = timestamp + 10,
stale at now = timestamp + 1000; reading leaves the record, clearing
removes it. -/
theorem print_service_status_expiry_witness :
    print_service_status envT stActive =
      Res.ok stActive [Effect.print ("[ Access Point ] Running (12:00:00, TestNet, CH 6, BSSID 02:00:00:00:00:01)")]
    ∧ print_service_status { envT with now := 1715901000 } stActive =
      Res.ok stActive [Effect.print ("[ Access Point ] Stopped")]
    ∧ (print_service_status envT stActive).st.apActive = stActive.apActive
    ∧ (cleanupOne envT stActive AP_ACTIVE_FILE).st.apActive = none := by
  have h1 := print_service_status_expiry envT stActive
    "1715900000|TestNet|02:00:00:00:00:01|6" 1715900000 rfl (by decide) (by decide)
  have h2 := print_service_status_expiry { envT with now := 1715901000 } stActive
    "1715900000|TestNet|02:00:00:00:00:01|6" 1715900000 rfl (by decide) (by decide)
  refine ⟨?_, ?_, ?_, ?_⟩
  · exact ((h1.1 (by decide)).1).trans (by decide)
  · exact (h2.2.1 (by decide)).trans (by decide)
  · exact (h1.2.2.1 stActive).1
  · exact h1.2.2.2 stActive (by decide)

/-- C2 counterexample: with a failing stop script that leaves the record
file alone, the record is still present (isActive would still be true)
after the Stop-AP flow completes — the flow performs no clear. -/
theorem stop_ap_leaves_record_counterexample :
    stActive.apActive.isSome = true
    ∧ (stop_ap envStopFail stActive).st.apActive =
        some "1715900000|TestNet|02:00:00:00:00:01|6"
    ∧ ((stop_ap envStopFail stActive).fx).any Effect.isRemoveFile = false := by
  decide

/-- C2 amended: the Stop-AP flow logs the action and runs the stop script
but never itself clears the state store: it removes no file, and whenever
the invoked script preserves the record file, the record after the flow is
exactly the record before it. -/
theorem stop_ap_no_clear (env : Env) (st : St)
    (hs : ∀ a s, ((env.scriptRun "utilities/stop-ap" a s).1).apActive = s.apActive) :
    ((stop_ap env st).fx).any Effect.isRemoveFile = false
    ∧ (stop_ap env st).st.apActive = st.apActive := by
  constructor
  · unfold stop_ap
    apply seq_any_false
    · exact log_event_any_false _ env st _ (fun m2 => rfl) (fun s2 => rfl)
    · intro s
      apply run_bash_script_any_false <;> (intros ; rfl)
  · unfold stop_ap
    exact apActive_seq_log_event env st LogMsg.stopAction
      (fun s => run_bash_script env s "utilities/stop-ap" [] true false true
        (some "Stop Access Point"))
      (fun s => run_bash_script_apActive env s "utilities/stop-ap" [] true false true
        (some "Stop Access Point") hs)

/-- Witness for the amended C2 at the failing-script environment. -/
theorem stop_ap_no_clear_witness :
    ((stop_ap envStopFail stActive).fx).any Effect.isRemoveFile = false
    ∧ (stop_ap envStopFail stActive).st.apActive = stActive.apActive := by
  have h := stop_ap_no_clear envStopFail stActive (fun a s => rfl)
  exact ⟨h.1, h.2⟩

/-- C7 counterexample: with the log directory absent and directory creation
failing, `log_event` raises to its caller with nothing reported to the
screen — the makedirs call is outside the try-block. -/
theorem log_event_makedirs_raises_counterexample :
    stNoDir.logDirExists = false
    ∧ (log_event envNoMk stNoDir LogMsg.cleanupAction).isOk = false
    ∧ (log_event envNoMk stNoDir LogMsg.cleanupAction).fx = [] := by
  decide

/-- C7 amended: provided the log directory exists or can be created, a log
append never raises: a write failure is reported to the screen with two
prints and swallowed, and a successful write appends exactly the entry. -/
theorem log_event_write_failure_nonfatal (env : Env) (st : St) (m : LogMsg)
    (h : st.logDirExists = true ∨ env.makedirsOk = true) :
    (log_event env st m).isOk = true
    ∧ (env.logWriteOk = false →
        (log_event env st m).fx =
          [Effect.print ("[x] Failed to write to log file."), Effect.print ("(exception)")])
    ∧ (env.logWriteOk = true → (log_event env st m).fx = [Effect.logAppend m]) := by
  rw [log_event_norm env st m h]
  refine ⟨rfl, ?_, ?_⟩
  · intro hw
    simp [Res.fx, logFx, hw]
  · intro hw
    simp [Res.fx, logFx, hw]

/-- Witness for the amended C7: directory absent but creatable, write
failing — the append returns normally and reports the failure on screen. -/
theorem log_event_write_failure_nonfatal_witness :
    (log_event envWriteFail stNoDir LogMsg.cleanupAction).isOk = true
    ∧ (log_event envWriteFail stNoDir LogMsg.cleanupAction).fx =
        [Effect.print ("[x] Failed to write to log file."), Effect.print ("(exception)")] := by
  have h := log_event_write_failure_nonfatal envWriteFail stNoDir LogMsg.cleanupAction (Or.inr rfl)
  exact ⟨h.1, h.2.1 rfl⟩

/-- C6 counterexample: with an active record and a benign environment, the
caught-fault handler executes no process at all (the stop script is not
run), while the interrupt handler in the same state does run it. -/
theorem fault_path_skips_stop_counterexample :
    stActive.apActive.isSome = true
    ∧ hasExec (mainOnException envT stActive).fx = false
    ∧ hasExec (mainOnInterrupt envT stActive).fx = true := by
  decide

/-- C6 amended: a caught top-level fault ends the session only after the
temp cleanup has run (its effects are a prefix of the handler trace, and
with a working log directory and removable record file the record is gone
afterwards), but the stop script is not invoked on this path — on the
fault path nothing is executed, whereas the interrupt handler with an
active record executes the stop script whenever its path resolves. -/
theorem mainOnException_cleanup_only (env : Env) (st : St) :
    hasExec (mainOnException env st).fx = false
    ∧ (cleanup_temp_files env st).fx <+: (mainOnException env st).fx
    ∧ (st.logDirExists = true → env.removeOk AP_ACTIVE_FILE = true →
        (mainOnException env st).st.apActive = none)
    ∧ (st.apActive.isSome = true →
        hasExec (mainOnInterrupt env st).fx =
          (env.isFile (env.resolve (scriptCandidate env "utilities/stop-ap")) &&
           strictlyInside env.basePath (env.resolve (scriptCandidate env "utilities/stop-ap")))) := by
  refine ⟨?_, ?_, ?_, ?_⟩
  · unfold mainOnException hasExec
    apply seq_any_false
    · exact cleanup_any_false _ env st (fun m => rfl) (fun s2 => rfl) (fun s2 => rfl)
    · intro s
      apply seq_any_false
      · rfl
      · intro s2
        exact log_event_any_false _ env s2 _ (fun m => rfl) (fun s3 => rfl)
  · unfold mainOnException
    exact Res.fx_seq_prefix_self _ _
  · intro hdir hrm
    unfold mainOnException
    have hk : ∀ s : St,
        ((Res.seq (Res.ok s [Effect.print ("[x] An unexpected error occurred. See log for details.")])
          (fun s2 => log_event env s2 LogMsg.unexpectedError)).st.apActive = s.apActive) := by
      intro s
      rw [Res.st_seq_ok]
      exact apActive_log_event env s _
    rw [seq_st_apActive _ _ hk]
    unfold cleanup_temp_files tempFiles
    simp only [List.foldl]
    rw [Res.st_seq_ok]
    rw [log_event_of_dir env st LogMsg.cleanupAction hdir]
    rw [Res.st_seq_ok]
    rw [seq_st_apActive _ _ (fun s => cleanupOne_preserves_ap env s HOSTAPD_CONF_FILE (by decide))]
    rw [seq_st_apActive _ _ (fun s => cleanupOne_preserves_ap env s HTTP_PID_FILE (by decide))]
    rw [Res.st_seq_ok]
    exact cleanupOne_clears_ap env st hrm
  · intro hap
    unfold mainOnInterrupt
    simp only [hap, if_true]
    have hkrest : ∀ s : St,
        hasExec ((Res.seq (cleanup_temp_files env s)
          (fun s2 => Res.seq (Res.ok s2 [Effect.print ("[!] Session interrupted by user.")])
            (fun s3 => log_event env s3 LogMsg.sessionInterrupted))).fx) = false := by
      intro s
      unfold hasExec
      apply seq_any_false
      · exact cleanup_any_false _ env s (fun m => rfl) (fun s2 => rfl) (fun s2 => rfl)
      · intro s2
        apply seq_any_false
        · rfl
        · intro s3
          exact log_event_any_false _ env s3 _ (fun m => rfl) (fun s4 => rfl)
    rw [hasExec_seq _ _ hkrest]
    have h1 : hasExec [Effect.print ("[!] Stopping running access point due to user interrupt...")] = false := rfl
    rw [Res.fx_seq_ok, hasExec_append, h1, hasExec_run_bash_script]
    simp

/-- Witness for the amended C6 at the benign environment with an active
record: no execution on the fault path, record cleared, stop script run on
the interrupt path. -/
theorem mainOnException_cleanup_only_witness :
    hasExec (mainOnException envT stActive).fx = false
    ∧ (mainOnException envT stActive).st.apActive = none
    ∧ hasExec (mainOnInterrupt envT stActive).fx = true := by
  have h := mainOnException_cleanup_only envT stActive
  refine ⟨h.1, h.2.2.1 rfl rfl, ?_⟩
  rw [h.2.2.2 rfl]
  decide

/-- A normal return followed directly by a log write, when the directory
step cannot fault, collapses to a normal return. -/
theorem seq_ok_log (env : Env) (s : St) (f : List Effect) (m : LogMsg)
    (hd : s.logDirExists = true) :
    Res.seq (Res.ok s f) (fun s2 => log_event env s2 m) = Res.ok s (f ++ logFx env m) := by
  show (match log_event env s m with
    | Res.ok s2 f2 => Res.ok s2 (f ++ f2)
    | Res.exn s2 f2 => Res.exn s2 (f ++ f2)) = Res.ok s (f ++ logFx env m)
  rw [log_event_of_dir env s m hd]

/-- Under a passing sandbox guard and a clean script exit, the runner
appends no log entry of its own. -/
theorem countLogs_run_success (env : Env) (st : St) (name : String) (args : List String)
    (pause capture clear : Bool) (title : Option String)
    (hguard : (env.isFile (env.resolve (scriptCandidate env name)) &&
       strictlyInside env.basePath (env.resolve (scriptCandidate env name))) = true)
    (hok : ∀ a s, ∃ out, (env.scriptRun name a s).2 = ScriptOut.success out) :
    countLogs (run_bash_script env st name args pause capture clear title).fx = 0 := by
  simp only [run_bash_script, hguard, if_true]
  rw [Res.fx_seq_ok, countLogs_append]
  obtain ⟨out, hout⟩ := hok args st
  rcases hr : env.scriptRun name args st with ⟨s2, o⟩
  rw [hr] at hout
  have ho : o = ScriptOut.success out := hout
  subst ho
  simp only [hr]
  cases clear <;> cases title <;> cases capture <;> cases pause <;> rfl

/-- C8 counterexample: a launch attempt rejected because a record already
exists appends no log entry at all. -/
theorem reject_branch_zero_logs_counterexample :
    stActive.apActive.isSome = true
    ∧ countLogs (ap_profiles_launch envT stActive 0 false false).fx = 0 := by
  decide

/-- C8 amended: with working logging and successfully resolving, cleanly
exiting scripts, the stop branch appends exactly one entry and the
accepted launch appends exactly one entry (one more, for the generated
BSSID, when a custom BSSID is chosen), but the rejected-as-already-running
branch appends none — only a screen warning. -/
theorem branch_log_entries (env : Env) (st : St) (i : Nat) (c : String) (useNat : Bool)
    (hdir : st.logDirExists = true) (hw : env.logWriteOk = true)
    (hstop : (env.isFile (env.resolve (scriptCandidate env "utilities/stop-ap")) &&
       strictlyInside env.basePath (env.resolve (scriptCandidate env "utilities/stop-ap"))) = true)
    (hstart : (env.isFile (env.resolve (scriptCandidate env "utilities/start-ap")) &&
       strictlyInside env.basePath (env.resolve (scriptCandidate env "utilities/start-ap"))) = true)
    (hokStop : ∀ a s, ∃ out, (env.scriptRun "utilities/stop-ap" a s).2 = ScriptOut.success out)
    (hokStart : ∀ a s, ∃ out, (env.scriptRun "utilities/start-ap" a s).2 = ScriptOut.success out)
    (hidle : st.apActive = none) :
    countLogs (stop_ap env st).fx = 1
    ∧ countLogs (ap_profiles_launch env { st with apActive := some c } i useNat false).fx = 0
    ∧ countLogs (ap_profiles_launch env st i useNat false).fx = 1
    ∧ countLogs (ap_profiles_launch env st i useNat true).fx = 2 := by
  refine ⟨?_, ?_, ?_, ?_⟩
  · unfold stop_ap
    rw [log_event_of_dir env st _ hdir, Res.fx_seq_ok, countLogs_append,
      countLogs_run_success env st _ _ _ _ _ _ hstop hokStop, countLogs_logFx]
    simp [hw]
  · have he : ({ st with apActive := some c } : St).apActive.isSome = true := rfl
    simp [ap_profiles_launch, he, Res.fx, countLogs, Effect.isLogAppend]
  · have hsome : st.apActive.isSome = false := by
      rw [hidle]
      rfl
    simp only [ap_profiles_launch, hsome, Bool.false_eq_true, if_false]
    simp only [Res.fx_seq_ok]
    rw [log_event_of_dir env { st with envBssid := none } _ hdir]
    simp only [Res.fx_seq_ok, List.nil_append]
    rw [countLogs_append, countLogs_logFx,
      countLogs_run_success env { st with envBssid := none } _ _ _ _ _ _ hstart hokStart]
    simp [hw]
  · have hsome : st.apActive.isSome = false := by
      rw [hidle]
      rfl
    simp only [ap_profiles_launch, hsome, Bool.false_eq_true, if_false, if_true]
    rw [seq_ok_log env { st with envBssid := some (generate_bssid (i + 1)) } []
      (LogMsg.setCustomBssid (generate_bssid (i + 1))) hdir]
    simp only [Res.fx_seq_ok, List.nil_append]
    rw [log_event_of_dir env { st with envBssid := some (generate_bssid (i + 1)) } _ hdir]
    simp only [Res.fx_seq_ok]
    rw [countLogs_append, countLogs_append, countLogs_logFx, countLogs_logFx,
      countLogs_run_success env { st with envBssid := some (generate_bssid (i + 1)) }
        _ _ _ _ _ _ hstart hokStart]
    simp [hw]

/-- Witness for the amended C8 in the benign environment. -/
theorem branch_log_entries_witness :
    countLogs (stop_ap envT st0).fx = 1
    ∧ countLogs (ap_profiles_launch envT stActive 0 true false).fx = 0
    ∧ countLogs (ap_profiles_launch envT st0 0 true false).fx = 1
    ∧ countLogs (ap_profiles_launch envT st0 0 true true).fx = 2 := by
  have h := branch_log_entries envT st0 0 "1715900000|TestNet|02:00:00:00:00:01|6" true
    rfl rfl (by decide) (by decide) (fun a s => ⟨"", rfl⟩) (fun a s => ⟨"", rfl⟩) rfl
  exact ⟨h.1, h.2.1, h.2.2.1, h.2.2.2⟩

/-- C9: the custom BSSID generated for a launch is deterministic in the
selected profile: for the profile listed under one-based menu index
`i + 1` it is the string `02:00:00:00:00:` followed by that index rendered
as two-digit uppercase hexadecimal, and the launch flow logs exactly this
generated value. -/
theorem generate_bssid_deterministic (env : Env) (st : St) (i : Nat) (useNat : Bool)
    (hi : i < AP_PROFILES.length) (hidle : st.apActive = none)
    (hdir : st.logDirExists = true) (hw : env.logWriteOk = true) :
    generate_bssid (i + 1) = "02:00:00:00:00:" ++ pyFormat02X (i + 1)
    ∧ (pyFormat02X (i + 1)).length = 2
    ∧ Effect.logAppend (LogMsg.setCustomBssid (generate_bssid (i + 1)))
        ∈ (ap_profiles_launch env st i useNat true).fx := by
  have hi13 : i < 13 := by
    have hlen : AP_PROFILES.length = 13 := rfl
    omega
  refine ⟨?_, ?_, ?_⟩
  · interval_cases i <;> decide
  · interval_cases i <;> decide
  · have hsome : st.apActive.isSome = false := by
      rw [hidle]
      rfl
    simp only [ap_profiles_launch, hsome, Bool.false_eq_true, if_false, if_true]
    rw [seq_ok_log env { st with envBssid := some (generate_bssid (i + 1)) } []
      (LogMsg.setCustomBssid (generate_bssid (i + 1))) hdir]
    simp only [Res.fx_seq_ok, List.nil_append]
    simp [logFx, hw, List.mem_append]

/-- Witness for C9 at the first profile. -/
theorem generate_bssid_deterministic_witness :
    generate_bssid 1 = "02:00:00:00:00:" ++ pyFormat02X 1
    ∧ (pyFormat02X 1).length = 2
    ∧ Effect.logAppend (LogMsg.setCustomBssid (generate_bssid 1))
        ∈ (ap_profiles_launch envT st0 0 false true).fx := by
  have h := generate_bssid_deterministic envT st0 0 false (by decide) rfl rfl rfl
  exact ⟨h.1, h.2.1, h.2.2⟩

/-- C5 counterexample: a fresh legacy-form record `ssid|timestamp|nat_flag`
is not read back: the reader treats it as Stopped instead of yielding its
fields. -/
theorem legacy_record_not_parsed_counterexample :
    stLegacy.apActive = some "TestNet|1715900000|nat"
    ∧ (pySplit (pyStrip "TestNet|1715900000|nat") '|').length = 3
    ∧ print_service_status envT stLegacy =
        Res.ok stLegacy [Effect.print ("[ Access Point ] " ++ "Stopped")] := by
  decide

/-- C5 amended: the state reader is compatible with the canonical schema
only: a fresh well-formed canonical record (four fields, or five with the
optional NAT status) renders Running from its fields, with the absent
fifth field defaulted to no NAT segment; legacy-form records are not
parsed — a 3-field record is silently shown as Stopped and a ≥4-field
record with a non-integer leading field is logged as a read error and
shown as Stopped. -/
theorem ap_status_reader_schema (env : Env) (st : St) (content : String) (ts : Int)
    (hc : st.apActive = some content)
    (hlen : (pySplit (pyStrip content) '|').length ≥ 4)
    (hts : pyInt ((pySplit (pyStrip content) '|').getD 0 "") = some ts)
    (hfresh : env.now - ts ≤ 900) :
    (print_service_status env st =
      Res.ok st [Effect.print ("[ Access Point ] " ++
        runningDisplay env ts (pySplit (pyStrip content) '|'))])
    ∧ ((pySplit (pyStrip content) '|').length = 4 →
        runningDetails env ts (pySplit (pyStrip content) '|') =
          env.fmtTime ts ++ ", " ++ orNA ((pySplit (pyStrip content) '|').getD 1 "") ++ ", CH " ++
            orNA ((pySplit (pyStrip content) '|').getD 3 "") ++ ", BSSID " ++
            orNA ((pySplit (pyStrip content) '|').getD 2 ""))
    ∧ (∀ st4 : St, ∀ c : String, st4.apActive = some c →
        (pySplit (pyStrip c) '|').length = 3 →
        print_service_status env st4 =
          Res.ok st4 [Effect.print ("[ Access Point ] " ++ "Stopped")])
    ∧ (∀ st5 : St, ∀ c : String, st5.apActive = some c →
        (pySplit (pyStrip c) '|').length ≥ 4 →
        pyInt ((pySplit (pyStrip c) '|').getD 0 "") = none →
        print_service_status env st5 =
          Res.seq (log_event env st5 LogMsg.errReadApStatus)
            (fun s => Res.ok s [Effect.print ("[ Access Point ] " ++ "Stopped")])) := by
  refine ⟨?_, ?_, ?_, ?_⟩
  · rw [print_service_status_wf env st content ts hc hlen hts, if_pos hfresh]
  · intro h4
    have h5 : ¬ ((pySplit (pyStrip content) '|').length ≥ 5) := by omega
    simp only [runningDetails]
    rw [if_neg h5]
    simp
  · intro st4 c hc4 hc3
    exact print_service_status_short env st4 c hc4 (by omega)
  · intro st5 c hc5 h4 hn
    exact print_service_status_badTs env st5 c hc5 h4 hn

/-- Witness for the amended C5: the canonical 4-field record renders
Running without a NAT segment, the 3-field legacy record shows Stopped,
and the 4-field legacy record logs a read error and shows Stopped. -/
theorem ap_status_reader_schema_witness :
    print_service_status envT stActive =
      Res.ok stActive [Effect.print ("[ Access Point ] Running (12:00:00, TestNet, CH 6, BSSID 02:00:00:00:00:01)")]
    ∧ print_service_status envT stLegacy =
        Res.ok stLegacy [Effect.print ("[ Access Point ] Stopped")]
    ∧ print_service_status envT stLegacy4 =
        Res.ok stLegacy4 [Effect.logAppend LogMsg.errReadApStatus,
          Effect.print ("[ Access Point ] Stopped")] := by
  have h := ap_status_reader_schema envT stActive "1715900000|TestNet|02:00:00:00:00:01|6"
    1715900000 rfl (by decide) (by decide) (by decide)
  refine ⟨h.1.trans (by decide), ?_, ?_⟩
  · exact (h.2.2.1 stLegacy "TestNet|1715900000|nat" rfl (by decide)).trans (by decide)
  · exact (h.2.2.2 stLegacy4 "TestNet|1715900000|nat|02:00:00:00:00:01" rfl (by decide)
      (by decide)).trans (by decide)

/-- Removing a file never touches the log directory. -/
@[simp] theorem logDir_removeFileSt (st : St) (q : String) :
    (removeFileSt st q).logDirExists = st.logDirExists := by
  unfold removeFileSt
  split_ifs <;> rfl

/-- The AP record path test reads the AP field. -/
@[simp] theorem fileExistsSt_ap (st : St) :
    fileExistsSt st AP_ACTIVE_FILE = st.apActive.isSome := by
  unfold fileExistsSt
  rw [if_pos rfl]

/-- The pid-file path test reads the pid field. -/
@[simp] theorem fileExistsSt_pid (st : St) :
    fileExistsSt st HTTP_PID_FILE = st.httpPid := by
  unfold fileExistsSt
  rw [if_neg (by decide), if_pos rfl]

/-- The hostapd-conf path test reads the conf field. -/
@[simp] theorem fileExistsSt_conf (st : St) :
    fileExistsSt st HOSTAPD_CONF_FILE = st.hostapdConf := by
  unfold fileExistsSt
  rw [if_neg (by decide), if_neg (by decide), if_pos rfl]

/-- Removing the AP record clears the AP field. -/
@[simp] theorem removeFileSt_ap (st : St) :
    removeFileSt st AP_ACTIVE_FILE = { st with apActive := none } := by
  unfold removeFileSt
  rw [if_pos rfl]

/-- Removing the pid file clears the pid field. -/
@[simp] theorem removeFileSt_pid (st : St) :
    removeFileSt st HTTP_PID_FILE = { st with httpPid := false } := by
  unfold removeFileSt
  rw [if_neg (by decide), if_pos rfl]

/-- Removing the hostapd conf clears the conf field. -/
@[simp] theorem removeFileSt_conf (st : St) :
    removeFileSt st HOSTAPD_CONF_FILE = { st with hostapdConf := false } := by
  unfold removeFileSt
  rw [if_neg (by decide), if_neg (by decide), if_pos rfl]

/-- A log write never contains a file removal. -/
@[simp] theorem removeFile_not_mem_logFx (env : Env) (m : LogMsg) (q : String) :
    ¬ Effect.removeFile q ∈ logFx env m := by
  unfold logFx
  split <;> simp

/-- The three temp paths are pairwise distinct. -/
@[simp] theorem ap_ne_pid : ¬ (AP_ACTIVE_FILE = HTTP_PID_FILE) := by decide

/-- The three temp paths are pairwise distinct. -/
@[simp] theorem ap_ne_conf : ¬ (AP_ACTIVE_FILE = HOSTAPD_CONF_FILE) := by decide

/-- The three temp paths are pairwise distinct. -/
@[simp] theorem pid_ne_ap : ¬ (HTTP_PID_FILE = AP_ACTIVE_FILE) := by decide

/-- The three temp paths are pairwise distinct. -/
@[simp] theorem pid_ne_conf : ¬ (HTTP_PID_FILE = HOSTAPD_CONF_FILE) := by decide

/-- The three temp paths are pairwise distinct. -/
@[simp] theorem conf_ne_ap : ¬ (HOSTAPD_CONF_FILE = AP_ACTIVE_FILE) := by decide

/-- The three temp paths are pairwise distinct. -/
@[simp] theorem conf_ne_pid : ¬ (HOSTAPD_CONF_FILE = HTTP_PID_FILE) := by decide

/-- Normal form of a cleanup iteration when the log directory exists: the
removal is attempted exactly when the file is present, a removal failure is
caught and logged, and no exception escapes. -/
theorem cleanupOne_eq (env : Env) (st : St) (q : String) (hd : st.logDirExists = true) :
    cleanupOne env st q =
      if fileExistsSt st q then
        (if env.removeOk q then
          Res.ok (removeFileSt st q) (Effect.removeFile q :: logFx env (LogMsg.removedTemp q))
        else Res.ok st (Effect.removeFile q :: logFx env (LogMsg.errRemoveTemp q)))
      else Res.ok st [] := by
  unfold cleanupOne
  by_cases he : fileExistsSt st q = true
  · rw [if_pos he, if_pos he]
    by_cases hr : env.removeOk q = true
    · rw [if_pos hr, if_pos hr]
      rw [log_event_of_dir env (removeFileSt st q) (LogMsg.removedTemp q)
        (by rw [logDir_removeFileSt]; exact hd)]
    · rw [if_neg hr, if_neg hr]
      rw [log_event_of_dir env st (LogMsg.errRemoveTemp q) hd]
  · rw [if_neg he, if_neg he]

/-- A cleanup iteration with a usable log directory returns normally. -/
theorem cleanupOne_isOk (env : Env) (st : St) (q : String) (hd : st.logDirExists = true) :
    (cleanupOne env st q).isOk = true := by
  rw [cleanupOne_eq env st q hd]
  split_ifs <;> rfl

/-- A cleanup iteration preserves the log directory flag. -/
theorem cleanupOne_logDir (env : Env) (st : St) (q : String) (hd : st.logDirExists = true) :
    (cleanupOne env st q).st.logDirExists = true := by
  rw [cleanupOne_eq env st q hd]
  split_ifs <;> simp [Res.st, hd]

/-- Sequencing preserves normal return plus the log-directory invariant. -/
theorem seq_ok_dir (r : Res) (k : St → Res)
    (hr : r.isOk = true ∧ r.st.logDirExists = true)
    (hk : ∀ s, s.logDirExists = true → (k s).isOk = true ∧ (k s).st.logDirExists = true) :
    (Res.seq r k).isOk = true ∧ (Res.seq r k).st.logDirExists = true := by
  rcases r with ⟨s, f⟩ | ⟨s, f⟩
  · rw [Res.isOk_seq_ok, Res.st_seq_ok]
    exact hk s hr.2
  · exact absurd hr.1 (by simp [Res.isOk])

/-- C10 counterexample: with all three temp files present but the log
directory absent and uncreatable, the cleanup raises to its caller before
attempting a single removal. -/
theorem cleanup_raises_counterexample :
    fileExistsSt stAllTemps AP_ACTIVE_FILE = true
    ∧ fileExistsSt stAllTemps HTTP_PID_FILE = true
    ∧ fileExistsSt stAllTemps HOSTAPD_CONF_FILE = true
    ∧ (cleanup_temp_files envNoMk stAllTemps).isOk = false
    ∧ ((cleanup_temp_files envNoMk stAllTemps).fx).any Effect.isRemoveFile = false := by
  decide

/-- C10 amended: provided the log directory exists or can be created, the
cleanup returns normally, attempts the removal of exactly the present temp
files (a removal failure on one file does not stop the others), and leaves
each file present exactly when it was present and its removal failed. -/
theorem cleanup_per_file_total (env : Env) (st : St)
    (h : st.logDirExists = true ∨ env.makedirsOk = true) :
    (cleanup_temp_files env st).isOk = true
    ∧ (∀ q ∈ tempFiles,
        (Effect.removeFile q ∈ (cleanup_temp_files env st).fx ↔ fileExistsSt st q = true))
    ∧ (∀ q ∈ tempFiles,
        fileExistsSt (cleanup_temp_files env st).st q =
          (fileExistsSt st q && !(env.removeOk q))) := by
  have hlog := log_event_norm env st LogMsg.cleanupAction h
  refine ⟨?_, ?_, ?_⟩
  · unfold cleanup_temp_files tempFiles
    simp only [List.foldl]
    simp only [Res.isOk_seq_ok]
    rw [hlog]
    simp only [Res.isOk_seq_ok]
    have h1 := seq_ok_dir (Res.ok ({ st with logDirExists := true } : St) [])
      (fun s => cleanupOne env s AP_ACTIVE_FILE) ⟨rfl, rfl⟩
      (fun s hs => ⟨cleanupOne_isOk env s AP_ACTIVE_FILE hs, cleanupOne_logDir env s AP_ACTIVE_FILE hs⟩)
    have h2 := seq_ok_dir _ (fun s => cleanupOne env s HTTP_PID_FILE) h1
      (fun s hs => ⟨cleanupOne_isOk env s HTTP_PID_FILE hs, cleanupOne_logDir env s HTTP_PID_FILE hs⟩)
    have h3 := seq_ok_dir _ (fun s => cleanupOne env s HOSTAPD_CONF_FILE) h2
      (fun s hs => ⟨cleanupOne_isOk env s HOSTAPD_CONF_FILE hs, cleanupOne_logDir env s HOSTAPD_CONF_FILE hs⟩)
    exact h3.1
  · intro q hq
    simp only [tempFiles, List.mem_cons, List.not_mem_nil, or_false] at hq
    rcases hq with rfl | rfl | rfl <;>
    · by_cases ha : st.apActive.isSome = true <;>
      by_cases hp : st.httpPid = true <;>
      by_cases hcf : st.hostapdConf = true <;>
      by_cases ra : env.removeOk AP_ACTIVE_FILE = true <;>
      by_cases rp : env.removeOk HTTP_PID_FILE = true <;>
      by_cases rc : env.removeOk HOSTAPD_CONF_FILE = true <;>
      simp [cleanup_temp_files, tempFiles, List.foldl, hlog, Res.seq, Res.fx, Res.st,
        cleanupOne_eq, ha, hp, hcf, ra, rp, rc]
  · intro q hq
    simp only [tempFiles, List.mem_cons, List.not_mem_nil, or_false] at hq
    rcases hq with rfl | rfl | rfl <;>
    · by_cases ha : st.apActive.isSome = true <;>
      by_cases hp : st.httpPid = true <;>
      by_cases hcf : st.hostapdConf = true <;>
      by_cases ra : env.removeOk AP_ACTIVE_FILE = true <;>
      by_cases rp : env.removeOk HTTP_PID_FILE = true <;>
      by_cases rc : env.removeOk HOSTAPD_CONF_FILE = true <;>
      simp [cleanup_temp_files, tempFiles, List.foldl, hlog, Res.seq, Res.fx, Res.st,
        cleanupOne_eq, ha, hp, hcf, ra, rp, rc]

/-- Witness for the amended C10: all files present, pid-file removal
failing — the cleanup returns normally, attempts all three removals, and
only the pid file survives. -/
theorem cleanup_per_file_total_witness :
    (cleanup_temp_files envPidFail stAll3).isOk = true
    ∧ (Effect.removeFile HTTP_PID_FILE ∈ (cleanup_temp_files envPidFail stAll3).fx
        ↔ fileExistsSt stAll3 HTTP_PID_FILE = true)
    ∧ fileExistsSt (cleanup_temp_files envPidFail stAll3).st HTTP_PID_FILE =
        (fileExistsSt stAll3 HTTP_PID_FILE && !(envPidFail.removeOk HTTP_PID_FILE))
    ∧ fileExistsSt (cleanup_temp_files envPidFail stAll3).st AP_ACTIVE_FILE =
        (fileExistsSt stAll3 AP_ACTIVE_FILE && !(envPidFail.removeOk AP_ACTIVE_FILE)) := by
  have h := cleanup_per_file_total envPidFail stAll3 (Or.inl rfl)
  exact ⟨h.1, h.2.1 HTTP_PID_FILE (by decide), h.2.2 HTTP_PID_FILE (by decide),
    h.2.2 AP_ACTIVE_FILE (by decide)⟩

end Wapt
